import Mathlib

/-!
# Workflow dashboard state-derivation layer: a verification development

Shallow embedding of the pure state-derivation logic of
`src/dashboard/src/components/workflow-dashboard.tsx`: the filter engine
(`filteredWorkflows`), the selection resolver (`selectedWorkflow`), the
relative-time formatter (`formatRelative`), the orchestrator's filter and
selection state with its update actions, and the metrics aggregator
(`computeSummaryMetrics`, whose body lives in the repository's
`src/lib/metrics` module and is modelled from §4.2 of the specification).

Conventions of the embedding:
* JavaScript millisecond timestamps become `Int`; `Math.round` on a ratio of
  integers becomes `jsRound` (floor of the ratio plus one half, which is
  exactly JavaScript's round-half-toward-positive-infinity).
* The status filter value `"all" | WorkflowStatus` becomes
  `Option WorkflowStatus`, with `none` standing for the literal `"all"`.
* JavaScript strict equality `===` on strings and enums becomes decidable
  equality; `String.prototype.includes` becomes list-infix containment of the
  character lists; `toLowerCase` becomes `String.toLower` (simple case
  mapping).
* Fractional quantities (`successRate`, `durationSeconds`, averages) become
  `Rat`.
-/

/-- The four workflow health states of `@/data/workflows` (spec §3). -/
inductive WorkflowStatus
  | healthy
  | warning
  | failed
  | paused
  deriving DecidableEq, Repr

/-- The three SLA breach-risk levels (spec §3). -/
inductive SlaBreachRisk
  | low
  | medium
  | high
  deriving DecidableEq, Repr

/-- One historical execution record of a workflow (spec §3, `Run`). -/
structure Run where
  id : String
  timestamp : String
  durationSeconds : Rat
  errors : Nat
  deriving DecidableEq, Repr

/-- A managed automation definition with observed run statistics
(spec §3, `Workflow`, as used by `workflow-dashboard.tsx`). -/
structure Workflow where
  id : String
  name : String
  client : String
  owner : String
  status : WorkflowStatus
  triggers : List String
  runsToday : Nat
  successRate : Rat
  slaBreachRisk : SlaBreachRisk
  lastRunAt : String
  nextRunAt : Option String
  runHistory : List Run
  deriving DecidableEq, Repr

/-- The filter engine, from `workflow-dashboard.tsx` lines 99–111: keep a
workflow when it matches the client filter (`"all"` or exact client match),
the status filter (`none` models `"all"`), and the search term (empty, or a
case-insensitive substring of the name or the client). -/
def filteredWorkflows (initialWorkflows : List Workflow) (clientFilter : String)
    (statusFilter : Option WorkflowStatus) (searchTerm : String) : List Workflow :=
  initialWorkflows.filter fun workflow =>
    let matchesClient :=
      decide (clientFilter = "all") || decide (workflow.client = clientFilter)
    let matchesStatus :=
      decide (statusFilter = none) || decide (some workflow.status = statusFilter)
    let matchesSearch :=
      decide (searchTerm.length = 0)
        || decide (searchTerm.toLower.toList <:+: workflow.name.toLower.toList)
        || decide (searchTerm.toLower.toList <:+: workflow.client.toLower.toList)
    matchesClient && matchesStatus && matchesSearch

/-- The filter predicate exactly as the specification words it (§4.3): included
iff (clientFilter is `"all"` or the client equals it, case-sensitively), and
(statusFilter is `"all"` or the status equals it), and (the search term is
empty or the name or client case-insensitively contains it as a substring).
Stated independently of `filteredWorkflows` so the two can be compared. -/
def specFilterIncluded (clientFilter : String) (statusFilter : Option WorkflowStatus)
    (searchTerm : String) (workflow : Workflow) : Prop :=
  (clientFilter = "all" ∨ workflow.client = clientFilter) ∧
  (statusFilter = none ∨ some workflow.status = statusFilter) ∧
  (searchTerm = "" ∨ searchTerm.toLower.toList <:+: workflow.name.toLower.toList ∨
    searchTerm.toLower.toList <:+: workflow.client.toLower.toList)

/-- The selection resolver, from `workflow-dashboard.tsx` lines 118–123:
`filtered.find((w) => w.id === selectedId) ?? filtered[0] ?? null`. The
out-of-range indexing and the two `??` collapses are `find?` followed by
`head?`. -/
def selectedWorkflow (filtered : List Workflow) (selectedWorkflowId : String) :
    Option Workflow :=
  let byId :=
    (filtered.find? fun workflow => decide (workflow.id = selectedWorkflowId)).orElse
      fun _ => filtered.head?
  byId

/-- The orchestrator's mutable state, from `workflow-dashboard.tsx`
lines 87–92: the four `useState` fields. -/
structure DashboardState where
  clientFilter : String
  statusFilter : Option WorkflowStatus
  searchTerm : String
  selectedWorkflowId : String
  deriving DecidableEq, Repr

/-- The four state updates wired to the UI: the three filter setters
(lines 184, 202, 212) and the explicit row-click selection (line 231). -/
inductive DashboardAction
  | setClientFilter (value : String)
  | setStatusFilter (value : Option WorkflowStatus)
  | setSearchTerm (value : String)
  | setSelectedWorkflowId (value : String)
  deriving DecidableEq, Repr

/-- Each `useState` setter replaces exactly its own field. -/
def applyAction (state : DashboardState) : DashboardAction → DashboardState
  | .setClientFilter value => { state with clientFilter := value }
  | .setStatusFilter value => { state with statusFilter := value }
  | .setSearchTerm value => { state with searchTerm := value }
  | .setSelectedWorkflowId value => { state with selectedWorkflowId := value }

/-- The initial orchestrator state, from `workflow-dashboard.tsx` lines 87–92:
filters default to `"all"`/`"all"`/`""` and the selected id to
`initialWorkflows[0]?.id ?? ""`. -/
def initialDashboardState (initialWorkflows : List Workflow) : DashboardState :=
  { clientFilter := "all"
    statusFilter := none
    searchTerm := ""
    selectedWorkflowId := ((initialWorkflows.head?).map Workflow.id).getD "" }

/-- JavaScript's `Math.round (num / den)` for integer `num` and positive
integer `den`: the floor of the ratio plus one half (`Math.round` sends a
half to the next larger value, so `Math.round (-0.5) = -0`). -/
def jsRound (num den : Int) : Int :=
  Int.fdiv (2 * num + den) (2 * den)

/-- The relative-time formatter of `workflow-dashboard.tsx` lines 60–80.
The source reads `new Date()` internally; the embedding passes that ambient
clock reading as the explicit first argument `nowMs`, and the parsed target
timestamp as `thenMs`, both in milliseconds. -/
def formatRelative (nowMs thenMs : Int) : String :=
  let diffMs := nowMs - thenMs
  if diffMs < 0 then
    let futureMinutes := |jsRound diffMs 60000|
    if futureMinutes < 1 then "In moments"
    else if futureMinutes < 60 then s!"In {futureMinutes} min"
    else
      let futureHours := jsRound futureMinutes 60
      if futureHours < 24 then s!"In {futureHours} hr"
      else
        let futureDays := jsRound futureHours 24
        s!"In {futureDays}d"
  else
    let diffMins := jsRound diffMs 60000
    if diffMins < 1 then "Now"
    else if diffMins < 60 then s!"{diffMins} min ago"
    else
      let diffHours := jsRound diffMins 60
      if diffHours < 24 then s!"{diffHours} hr ago"
      else
        let diffDays := jsRound diffHours 24
        s!"{diffDays}d ago"

/-- Rounding half away from zero, one of the two rules §4.1 of the
specification allows: written out from the spec's words, to be compared with
the `Math.round` the source uses. -/
def roundHalfAwayFromZero (num den : Int) : Int :=
  if 0 ≤ num then Int.fdiv (2 * num + den) (2 * den)
  else -Int.fdiv (2 * (-num) + den) (2 * den)

/-- Rounding half to even, the other rule §4.1 of the specification allows:
written out from the spec's words, to be compared with the `Math.round` the
source uses. -/
def roundHalfToEven (num den : Int) : Int :=
  let q := Int.fdiv num den
  let r := num - q * den
  if 2 * r < den then q
  else if den < 2 * r then q + 1
  else if q % 2 = 0 then q else q + 1

/-- The relative-time formatter as it would read with every rounding replaced
by round-half-away-from-zero (spec §4.1's first allowed rule). -/
def formatRelativeHalfAway (nowMs thenMs : Int) : String :=
  let diffMs := nowMs - thenMs
  if diffMs < 0 then
    let futureMinutes := |roundHalfAwayFromZero diffMs 60000|
    if futureMinutes < 1 then "In moments"
    else if futureMinutes < 60 then s!"In {futureMinutes} min"
    else
      let futureHours := roundHalfAwayFromZero futureMinutes 60
      if futureHours < 24 then s!"In {futureHours} hr"
      else
        let futureDays := roundHalfAwayFromZero futureHours 24
        s!"In {futureDays}d"
  else
    let diffMins := roundHalfAwayFromZero diffMs 60000
    if diffMins < 1 then "Now"
    else if diffMins < 60 then s!"{diffMins} min ago"
    else
      let diffHours := roundHalfAwayFromZero diffMins 60
      if diffHours < 24 then s!"{diffHours} hr ago"
      else
        let diffDays := roundHalfAwayFromZero diffHours 24
        s!"{diffDays}d ago"

/-- The relative-time formatter as it would read with every rounding replaced
by round-half-to-even (spec §4.1's second allowed rule). -/
def formatRelativeHalfEven (nowMs thenMs : Int) : String :=
  let diffMs := nowMs - thenMs
  if diffMs < 0 then
    let futureMinutes := |roundHalfToEven diffMs 60000|
    if futureMinutes < 1 then "In moments"
    else if futureMinutes < 60 then s!"In {futureMinutes} min"
    else
      let futureHours := roundHalfToEven futureMinutes 60
      if futureHours < 24 then s!"In {futureHours} hr"
      else
        let futureDays := roundHalfToEven futureHours 24
        s!"In {futureDays}d"
  else
    let diffMins := roundHalfToEven diffMs 60000
    if diffMins < 1 then "Now"
    else if diffMins < 60 then s!"{diffMins} min ago"
    else
      let diffHours := roundHalfToEven diffMins 60
      if diffHours < 24 then s!"{diffHours} hr ago"
      else
        let diffDays := roundHalfToEven diffHours 24
        s!"{diffDays}d ago"

/-- The fleet summary record. Modelled from the spec: `computeSummaryMetrics`
is imported from `@/lib/metrics`, whose source is not part of this repository
snapshot; §4.2 lists the fields `totalWorkflows`, the per-status counts,
`totalRunsToday`, `avgSuccessRate` and `averageDurationSeconds`. -/
structure SummaryMetrics where
  totalWorkflows : Nat
  healthy : Nat
  warning : Nat
  failed : Nat
  paused : Nat
  totalRunsToday : Nat
  avgSuccessRate : Rat
  averageDurationSeconds : Rat
  deriving DecidableEq, Repr

/-- Modelled from the spec: `computeSummaryMetrics` is imported from
`@/lib/metrics`, a module absent from this repository snapshot. Per §4.2,
a single-pass reduction: total count, per-status counts, the sum of
`runsToday`, the mean of `successRate` over the input sequence and the mean
of `durationSeconds` over all runs of all workflows' `runHistory` flattened,
with the mandatory division-by-zero guard producing `0` on empty input. -/
def computeSummaryMetrics (workflows : List Workflow) : SummaryMetrics :=
  let allRuns := workflows.flatMap Workflow.runHistory
  { totalWorkflows := workflows.length
    healthy := (workflows.filter fun w => decide (w.status = WorkflowStatus.healthy)).length
    warning := (workflows.filter fun w => decide (w.status = WorkflowStatus.warning)).length
    failed := (workflows.filter fun w => decide (w.status = WorkflowStatus.failed)).length
    paused := (workflows.filter fun w => decide (w.status = WorkflowStatus.paused)).length
    totalRunsToday := (workflows.map Workflow.runsToday).sum
    avgSuccessRate :=
      if workflows.length = 0 then 0
      else (workflows.map Workflow.successRate).sum / (workflows.length : Rat)
    averageDurationSeconds :=
      if allRuns.length = 0 then 0
      else (allRuns.map Run.durationSeconds).sum / (allRuns.length : Rat) }

/-- The `summary` derivation of `workflow-dashboard.tsx` lines 113–116: the
aggregator applied to the filtered view set of the current filter state. -/
def summary (initialWorkflows : List Workflow) (clientFilter : String)
    (statusFilter : Option WorkflowStatus) (searchTerm : String) : SummaryMetrics :=
  computeSummaryMetrics
    (filteredWorkflows initialWorkflows clientFilter statusFilter searchTerm)

/-- A string has length zero exactly when it is the empty string. -/
theorem string_length_eq_zero_iff (s : String) : s.length = 0 ↔ s = "" := by
  constructor
  · intro h
    cases s with
    | mk data =>
      have hd : data = [] := List.eq_nil_of_length_eq_zero h
      rw [hd]
  · intro h
    rw [h]
    rfl

/-- Rounding half away from zero agrees with JavaScript's `Math.round` on
nonnegative numerators. -/
theorem roundHalfAwayFromZero_eq_jsRound (num den : Int) (h : 0 ≤ num) :
    roundHalfAwayFromZero num den = jsRound num den := by
  rw [roundHalfAwayFromZero, if_pos h, jsRound]

/-- `jsRound` of a nonnegative ratio is nonnegative. -/
theorem jsRound_nonneg (num den : Int) (h1 : 0 ≤ num) (h2 : 0 ≤ den) :
    0 ≤ jsRound num den :=
  Int.fdiv_nonneg (by omega) (by omega)

/-- The relative label only depends on the difference of its two instants. -/
theorem formatRelative_shift (nowMs thenMs : Int) :
    formatRelative nowMs thenMs = formatRelative (nowMs - thenMs) 0 := by
  simp only [formatRelative, sub_zero]

/-- The resolver returns a workflow with the requested id whenever the
filtered sequence holds one. -/
theorem selectedWorkflow_of_mem (filtered : List Workflow) (sel : String)
    (w : Workflow) (hw : w ∈ filtered) (hid : w.id = sel) :
    ∃ w', selectedWorkflow filtered sel = some w' ∧ w' ∈ filtered ∧ w'.id = sel := by
  have hsome : (filtered.find? fun x => decide (x.id = sel)).isSome := by
    rw [List.find?_isSome]
    exact ⟨w, hw, by simpa using hid⟩
  obtain ⟨w', hw'⟩ := Option.isSome_iff_exists.mp hsome
  refine ⟨w', ?_, List.mem_of_find?_eq_some hw', by simpa using List.find?_some hw'⟩
  simp [selectedWorkflow, hw', Option.orElse]

/-- When no filtered workflow has the requested id, the resolver returns the
head of the filtered sequence. -/
theorem selectedWorkflow_of_not_found (filtered : List Workflow) (sel : String)
    (h : ∀ w ∈ filtered, w.id ≠ sel) :
    selectedWorkflow filtered sel = filtered.head? := by
  have hnone : (filtered.find? fun x => decide (x.id = sel)) = none := by
    rw [List.find?_eq_none]
    intro x hx
    simpa using h x hx
  simp [selectedWorkflow, hnone, Option.orElse]

/-- C1: the filter includes a workflow iff the client, status and
case-insensitive search clauses all hold, and the result preserves the
relative order of the input sequence (it is a sublist of it). -/
theorem filteredWorkflows_spec (initialWorkflows : List Workflow) (clientFilter : String)
    (statusFilter : Option WorkflowStatus) (searchTerm : String) :
    (∀ workflow,
      workflow ∈ filteredWorkflows initialWorkflows clientFilter statusFilter searchTerm ↔
        workflow ∈ initialWorkflows ∧
          specFilterIncluded clientFilter statusFilter searchTerm workflow) ∧
    (filteredWorkflows initialWorkflows clientFilter statusFilter searchTerm).Sublist
      initialWorkflows := by
  refine ⟨fun workflow => ?_, List.filter_sublist _⟩
  simp only [filteredWorkflows, List.mem_filter, Bool.and_eq_true, Bool.or_eq_true,
    decide_eq_true_eq, specFilterIncluded, string_length_eq_zero_iff, and_assoc, or_assoc]

/-- C2: if some filtered workflow has the selected id the resolver returns
such a workflow; with no id match it returns the head of the filtered
sequence; on the empty sequence it returns `none` — it is a total function,
never an error. -/
theorem selectedWorkflow_spec (filtered : List Workflow) (selectedWorkflowId : String) :
    ((∃ w ∈ filtered, w.id = selectedWorkflowId) →
      ∃ w, selectedWorkflow filtered selectedWorkflowId = some w ∧
        w ∈ filtered ∧ w.id = selectedWorkflowId) ∧
    ((∀ w ∈ filtered, w.id ≠ selectedWorkflowId) →
      selectedWorkflow filtered selectedWorkflowId = filtered.head?) ∧
    (filtered = [] → selectedWorkflow filtered selectedWorkflowId = none) := by
  refine ⟨?_, selectedWorkflow_of_not_found filtered selectedWorkflowId, ?_⟩
  · rintro ⟨w, hw, hid⟩
    exact selectedWorkflow_of_mem filtered selectedWorkflowId w hw hid
  · rintro rfl
    rfl

/-- C7: filtering never lengthens the sequence, and the identity filter
triple (`"all"`, `"all"`, `""`) returns the input unchanged. -/
theorem filteredWorkflows_length_le_and_identity (initialWorkflows : List Workflow)
    (clientFilter : String) (statusFilter : Option WorkflowStatus) (searchTerm : String) :
    (filteredWorkflows initialWorkflows clientFilter statusFilter searchTerm).length ≤
      initialWorkflows.length ∧
    filteredWorkflows initialWorkflows "all" none "" = initialWorkflows := by
  constructor
  · exact List.length_filter_le _ _
  · rw [filteredWorkflows, List.filter_eq_self]
    intro w hw
    simp

/-- Partitioning a workflow sequence by the four status values accounts for
every element exactly once. -/
theorem status_filter_length_partition (workflows : List Workflow) :
    (workflows.filter fun w => decide (w.status = WorkflowStatus.healthy)).length +
    (workflows.filter fun w => decide (w.status = WorkflowStatus.warning)).length +
    (workflows.filter fun w => decide (w.status = WorkflowStatus.failed)).length +
    (workflows.filter fun w => decide (w.status = WorkflowStatus.paused)).length =
    workflows.length := by
  induction workflows with
  | nil => rfl
  | cons w rest ih =>
    cases h : w.status <;> simp [List.filter_cons, h] <;> omega

/-- C6: summarizing the empty sequence yields zero counts and the two
averages exactly `0` — the division-by-zero guards fire, no error value. -/
theorem computeSummaryMetrics_empty :
    computeSummaryMetrics [] =
      { totalWorkflows := 0, healthy := 0, warning := 0, failed := 0, paused := 0,
        totalRunsToday := 0, avgSuccessRate := 0, averageDurationSeconds := 0 } := by
  rfl

/-- C8: the displayed summary is the aggregator applied to exactly the
filtered view set, and the aggregator filters nothing itself: its total is the
length of whatever sequence it is handed, which its four status buckets
partition. -/
theorem summary_spec (initialWorkflows : List Workflow) (clientFilter : String)
    (statusFilter : Option WorkflowStatus) (searchTerm : String) :
    summary initialWorkflows clientFilter statusFilter searchTerm =
      computeSummaryMetrics
        (filteredWorkflows initialWorkflows clientFilter statusFilter searchTerm) ∧
    (summary initialWorkflows clientFilter statusFilter searchTerm).totalWorkflows =
      (filteredWorkflows initialWorkflows clientFilter statusFilter searchTerm).length ∧
    (summary initialWorkflows clientFilter statusFilter searchTerm).healthy +
      (summary initialWorkflows clientFilter statusFilter searchTerm).warning +
      (summary initialWorkflows clientFilter statusFilter searchTerm).failed +
      (summary initialWorkflows clientFilter statusFilter searchTerm).paused =
      (filteredWorkflows initialWorkflows clientFilter statusFilter searchTerm).length := by
  exact ⟨rfl, rfl, status_filter_length_partition _⟩

/-- C9: each of the three filter setters leaves the stored selected id
unchanged; only the explicit selection action can change it; and whenever the
(re-)filtered sequence again holds a workflow with the retained id, the
resolver returns a workflow with that id — stickiness is the orchestrator
retaining `selectedWorkflowId`, not resolver memory. -/
theorem selectedWorkflowId_frame :
    (∀ s v, (applyAction s (DashboardAction.setClientFilter v)).selectedWorkflowId =
      s.selectedWorkflowId) ∧
    (∀ s v, (applyAction s (DashboardAction.setStatusFilter v)).selectedWorkflowId =
      s.selectedWorkflowId) ∧
    (∀ s v, (applyAction s (DashboardAction.setSearchTerm v)).selectedWorkflowId =
      s.selectedWorkflowId) ∧
    (∀ s a, (applyAction s a).selectedWorkflowId ≠ s.selectedWorkflowId →
      ∃ v, a = DashboardAction.setSelectedWorkflowId v) ∧
    (∀ filtered sel (w : Workflow), w ∈ filtered → w.id = sel →
      ∃ w', selectedWorkflow filtered sel = some w' ∧ w' ∈ filtered ∧ w'.id = sel) := by
  refine ⟨fun s v => rfl, fun s v => rfl, fun s v => rfl, ?_, ?_⟩
  · intro s a h
    cases a with
    | setClientFilter v => exact absurd rfl h
    | setStatusFilter v => exact absurd rfl h
    | setSearchTerm v => exact absurd rfl h
    | setSelectedWorkflowId v => exact ⟨v, rfl⟩
  · intro filtered sel w hw hid
    exact selectedWorkflow_of_mem filtered sel w hw hid

/-- C10: on fresh initialization the filters default to `"all"`, `"all"`
(`none` in the embedding) and `""`, and the default selected id is the first
workflow's id when the supplied collection is non-empty. -/
theorem initialDashboardState_spec (initialWorkflows : List Workflow) :
    (initialDashboardState initialWorkflows).clientFilter = "all" ∧
    (initialDashboardState initialWorkflows).statusFilter = none ∧
    (initialDashboardState initialWorkflows).searchTerm = "" ∧
    (∀ w rest, initialWorkflows = w :: rest →
      (initialDashboardState initialWorkflows).selectedWorkflowId = w.id) := by
  refine ⟨rfl, rfl, rfl, ?_⟩
  rintro w rest rfl
  rfl

/-- C3 counterexample: fifty-nine seconds in the past, `Math.round` lifts the
delta to one whole minute, so the label is "1 min ago", not the "Now" the
boundary equation demands. -/
theorem relative_label_now_boundary_counterexample :
    formatRelative 59000 0 = "1 min ago" ∧ formatRelative 59000 0 ≠ "Now" :=
  ⟨rfl, by decide⟩

/-- C3 (amended): the four boundary equations with the 59-second case
producing "1 min ago"; the other three hold as the claim states them. -/
theorem relative_label_boundaries (now : Int) :
    formatRelative now (now - 59000) = "1 min ago" ∧
    formatRelative now (now - 60000) = "1 min ago" ∧
    formatRelative now (now - 3600000) = "1 hr ago" ∧
    formatRelative now (now + 30000) = "In moments" := by
  refine ⟨?_, ?_, ?_, ?_⟩
  · rw [formatRelative_shift, show now - (now - 59000) = 59000 by ring]
    rfl
  · rw [formatRelative_shift, show now - (now - 60000) = 60000 by ring]
    rfl
  · rw [formatRelative_shift, show now - (now - 3600000) = 3600000 by ring]
    rfl
  · rw [formatRelative_shift, show now - (now + 30000) = -30000 by ring]
    rfl

/-- C4 counterexample: the source's `formatRelative` reads `new Date()`
internally, so with the ambient clock made explicit, the same target
timestamp yields different labels at two different wall-clock instants. -/
theorem formatRelative_clock_dependence_counterexample :
    formatRelative 0 0 = "Now" ∧ formatRelative 3600000 0 = "1 hr ago" ∧
    formatRelative 0 0 ≠ formatRelative 3600000 0 :=
  ⟨rfl, rfl, by decide⟩

/-- C4 (amended): the formatter reads the clock internally, so the label does
change with wall-clock time; it is nevertheless a deterministic function of
the pair (clock reading, target) — indeed of their difference alone. -/
theorem formatRelative_deterministic_in_delta (n₁ t₁ n₂ t₂ : Int)
    (h : n₁ - t₁ = n₂ - t₂) : formatRelative n₁ t₁ = formatRelative n₂ t₂ := by
  rw [formatRelative_shift, h, ← formatRelative_shift]

/-- C4 witness: same clock-minus-target delta, equal labels. -/
theorem formatRelative_deterministic_in_delta_witness :
    formatRelative 5 2 = formatRelative 10 7 :=
  formatRelative_deterministic_in_delta 5 2 10 7 (by decide)

/-- C5 counterexample: a target 90 seconds in the future. `Math.round` sends
the half-minute delta toward positive infinity, labelling it "In 1 min",
while both rounding rules the claim allows (half away from zero, half to
even) label it "In 2 min": the code follows neither rule uniformly. -/
theorem rounding_rule_counterexample :
    ¬ ((∀ nowMs thenMs : Int,
          formatRelative nowMs thenMs = formatRelativeHalfAway nowMs thenMs) ∨
       (∀ nowMs thenMs : Int,
          formatRelative nowMs thenMs = formatRelativeHalfEven nowMs thenMs)) := by
  rintro (h | h)
  · exact absurd (h 0 90000) (by decide)
  · exact absurd (h 0 90000) (by decide)

/-- C5 (amended): every tier rounds with the one rule `Math.round` implements
(half toward positive infinity); on past targets, where every rounded value
is nonnegative, this coincides with round-half-away-from-zero at every tier;
and a delta of exactly 60 minutes renders as "1 hr ago", never "60 min ago".
-/
theorem formatRelative_rounding_consistent :
    (∀ nowMs thenMs : Int, thenMs ≤ nowMs →
      formatRelative nowMs thenMs = formatRelativeHalfAway nowMs thenMs) ∧
    (∀ nowMs thenMs : Int, nowMs - thenMs = 3600000 →
      formatRelative nowMs thenMs = "1 hr ago") := by
  constructor
  · intro nowMs thenMs h
    have h0 : (0 : Int) ≤ nowMs - thenMs := by omega
    have hd : ¬ nowMs - thenMs < 0 := by omega
    simp only [formatRelative, formatRelativeHalfAway, if_neg hd]
    rw [roundHalfAwayFromZero_eq_jsRound _ _ h0,
      roundHalfAwayFromZero_eq_jsRound _ _ (jsRound_nonneg _ _ h0 (by decide)),
      roundHalfAwayFromZero_eq_jsRound _ _
        (jsRound_nonneg _ _ (jsRound_nonneg _ _ h0 (by decide)) (by decide))]
  · intro nowMs thenMs h
    rw [formatRelative_shift, h]
    rfl
